import Mathlib

/-!
Shallow embedding of `setup.py`, the environment-bootstrap script of the
Leprosy-Diagnosis repository, together with theorems settling the frozen
claims about it.

The script touches the outside world through a small set of effects: the
filesystem (`os.path.exists`, `os.listdir`, `os.makedirs`, file writes,
`os.chmod`), environment variables, interactive `input()` prompts, and
`subprocess.check_call`.  All of these are modelled as fields of a `World`
record; each Python function becomes a Lean function from `World` to its
return value, the updated `World`, and (where relevant) the ordered list of
external process invocations it performed.  `os.makedirs` is the one
filesystem call whose failure path matters to the claims (it is not wrapped
in a `try` in the source), so it returns `Except`; the exception propagates
exactly as an uncaught Python `OSError` would.
-/

namespace SetupPy

/-- An external process invocation, as the argv list handed to
`subprocess.check_call`. -/
abbrev Cmd := List String

/-- The filesystem as the script observes it: path existence, directory-ness,
`os.listdir` entry counts, file contents (for the credential JSON file,
modelled as its field list) and permission modes. -/
structure FS where
  pathExists : String → Bool
  isDir : String → Bool
  numEntries : String → Nat
  fileContent : String → Option (List (String × String))
  fileMode : String → Option Nat

/-- The one modelled exception: `OSError` raised by `os.makedirs`. -/
inductive Err where
  | osError
deriving DecidableEq, Repr

/-- The outside world as `setup.py` sees it.  `runProc` is the oracle for
`subprocess.check_call`: given the argv list and the current filesystem it
yields whether the process exited zero, and the filesystem it leaves behind.
`mkdirFails` says on which paths `os.makedirs` would raise `OSError` (when
the path does not already exist); no function of the script ever changes it. -/
structure World where
  pyMajor : Nat
  pyMinor : Nat
  importable : String → Bool
  env : String → Option String
  fs : FS
  stdin : List String
  runProc : Cmd → FS → Bool × FS
  mkdirFails : String → Bool

/-- The interpreter path `sys.executable`, the interpreter used for every subprocess launch. -/
def sysExecutable : String := "python3"

/-- Python truthiness of an optional string: `None` and `""` are falsy
(`if not kaggle_username`). -/
def pyTruthy : Option String → Bool
  | none => false
  | some s => !(s == "")

/-- Python's `str.lower()`, restricted to the ASCII case folding the prompt
answers need. -/
def pyLower (s : String) : String := String.mk (s.data.map Char.toLower)

/-- Python's `str.replace('-', '_')`: the single-character replacement is a
character-wise map. -/
def dashToUnderscore (s : String) : String :=
  String.mk (s.data.map (fun c => if c == '-' then '_' else c))

/-- Python `input()`: consume the next queued stdin line (an empty queue, which in
reality blocks forever, reads as the empty string). -/
def readInput (w : World) : String × World :=
  match w.stdin with
  | [] => ("", w)
  | s :: rest => (s, { w with stdin := rest })

/-- Python `subprocess.check_call(cmd)`: ask the oracle; `true` means exit code 0
(no exception), `false` means `CalledProcessError` was raised (always caught
at the call sites of `setup.py`). -/
def subprocessCheckCall (cmd : Cmd) (w : World) : Bool × World :=
  let r := w.runProc cmd w.fs
  (r.1, { w with fs := r.2 })

/-- Split a character list at a separator character (Python path components). -/
def splitOnCharAux (c : Char) : List Char → List Char → List (List Char)
  | [], acc => [acc.reverse]
  | x :: xs, acc =>
      if x == c then acc.reverse :: splitOnCharAux c xs []
      else splitOnCharAux c xs (x :: acc)

/-- Rejoin path components with a separator character. -/
def joinParts (sep : Char) : List (List Char) → List Char
  | [] => []
  | [p] => p
  | p :: q :: rest => p ++ sep :: joinParts sep (q :: rest)

/-- All ancestors of a relative path, innermost last: the directories that
`os.makedirs(p)` creates (parents included).  For example
`pathPrefixes "a/b/c" = ["a", "a/b", "a/b/c"]`. -/
def pathPrefixes (s : String) : List String :=
  let parts := splitOnCharAux '/' s.data []
  (List.range parts.length).map (fun i => String.mk (joinParts '/' (parts.take (i + 1))))

/-- Mark one path as an existing directory. -/
def FS.mkdirOne (fs : FS) (d : String) : FS :=
  { fs with
    pathExists := fun p => p == d || fs.pathExists p,
    isDir := fun p => p == d || fs.isDir p }

/-- Python `os.makedirs(d, exist_ok=True)`: raises `OSError` when some not-yet-existing
ancestor of `d` is a path the filesystem refuses to create; otherwise marks
`d` and all its ancestors as existing directories. -/
def makedirs (d : String) (w : World) : Except Err World :=
  if (pathPrefixes d).any (fun p => !w.fs.pathExists p && w.mkdirFails p) then
    Except.error Err.osError
  else
    Except.ok { w with fs := (pathPrefixes d).foldl FS.mkdirOne w.fs }

/-- Python `open(p, "w")` followed by `json.dump(obj, f)`: the path now exists and
holds the given JSON object (as its field list). -/
def FS.writeFile (fs : FS) (p : String) (data : List (String × String)) : FS :=
  { fs with
    pathExists := fun q => q == p || fs.pathExists q,
    fileContent := fun q => if q == p then some data else fs.fileContent q }

/-- Python `os.chmod(p, m)`. -/
def FS.chmod (fs : FS) (p : String) (m : Nat) : FS :=
  { fs with fileMode := fun q => if q == p then some m else fs.fileMode q }

/-- Python `os.environ[k] = v`. -/
def World.setEnv (w : World) (k v : String) : World :=
  { w with env := fun q => if q == k then some v else w.env q }

/-- The path `os.path.expanduser("~/.kaggle")`, with the home directory kept symbolic. -/
def kaggleDirPath : String := "~/.kaggle"

/-- The path `os.path.expanduser("~/.kaggle/kaggle.json")`, which is also
`os.path.join` of `kaggleDirPath` and `"kaggle.json"`. -/
def kaggleJsonPath : String := "~/.kaggle/kaggle.json"

/-- Function `check_python_version` (setup.py lines 16-23): `False` iff the interpreter
is older than 3.8. -/
def check_python_version (w : World) : Bool :=
  if w.pyMajor < 3 ∨ (w.pyMajor = 3 ∧ w.pyMinor < 8) then false else true

/-- The fixed list of required packages (setup.py lines 27-31). -/
def required_packages : List String :=
  ["flask", "flask-login", "flask-sqlalchemy", "flask-wtf",
   "matplotlib", "numpy", "opencv-python", "pandas", "scikit-learn",
   "pillow", "werkzeug", "gunicorn"]

/-- The collection loop of `check_dependencies` (setup.py lines 33-40): for
each listed package, try `__import__(package.replace('-', '_'))` and append
the package to the missing list on `ImportError`. -/
def collectMissing (imp : String → Bool) : List String → List String → List String
  | [], acc => acc
  | p :: rest, acc =>
      if imp (dashToUnderscore p) then collectMissing imp rest acc
      else collectMissing imp rest (acc ++ [p])

/-- The `missing_packages` list computed by `check_dependencies`. -/
def missing_packages (w : World) : List String :=
  collectMissing w.importable required_packages []

/-- The `pip install` argv (setup.py line 47). -/
def pipInstallCmd (missing : List String) : Cmd :=
  [sysExecutable, "-m", "pip", "install"] ++ missing

/-- Function `check_dependencies` (setup.py lines 25-57): returns its success flag, the
updated world, and the external processes it launched. -/
def check_dependencies (w : World) : Bool × World × List Cmd :=
  let missing := missing_packages w
  if missing = [] then (true, w, [])
  else
    let r := readInput w
    if pyLower r.1 = "y" then
      let c := subprocessCheckCall (pipInstallCmd missing) r.2
      (c.1, c.2, [pipInstallCmd missing])
    else
      (false, r.2, [])

/-- Function `check_kaggle_credentials` (setup.py lines 59-100).  It launches no
external process; it may raise `OSError` out of the `os.makedirs` in the
persistence branch, hence the `Except`. -/
def check_kaggle_credentials (w : World) : Except Err (Bool × World) :=
  let kaggle_username := w.env "KAGGLE_USERNAME"
  let kaggle_key := w.env "KAGGLE_KEY"
  if !pyTruthy kaggle_username || !pyTruthy kaggle_key then
    if w.fs.pathExists kaggleJsonPath then
      Except.ok (true, w)
    else
      let r1 := readInput w
      if pyLower r1.1 = "y" then
        let r2 := readInput r1.2
        let r3 := readInput r2.2
        let w1 := (r3.2.setEnv "KAGGLE_USERNAME" r2.1).setEnv "KAGGLE_KEY" r3.1
        let r4 := readInput w1
        if pyLower r4.1 = "y" then
          match makedirs kaggleDirPath r4.2 with
          | Except.error e => Except.error e
          | Except.ok w2 =>
              let fs1 := w2.fs.writeFile kaggleJsonPath [("username", r2.1), ("key", r3.1)]
              Except.ok (true, { w2 with fs := fs1.chmod kaggleJsonPath 0o600 })
        else
          Except.ok (true, r4.2)
      else
        Except.ok (false, r1.2)
  else
    Except.ok (true, w)

/-- The fixed directory list of `setup_directories` (setup.py lines 104-117). -/
def directories : List String :=
  ["model",
   "dataset",
   "dataset/leprosy_dataset",
   "dataset/leprosy_dataset/positive",
   "dataset/leprosy_dataset/negative",
   "dataset/leprosy_dataset/irrelevant",
   "test_samples",
   "test_samples/positive",
   "test_samples/negative",
   "test_results",
   "static/uploads",
   "instance"]

/-- The loop of `setup_directories`: `os.makedirs(d, exist_ok=True)` for each
listed directory in order, propagating the first `OSError`. -/
def makedirsList : List String → World → Except Err World
  | [], w => Except.ok w
  | d :: rest, w =>
      match makedirs d w with
      | Except.error e => Except.error e
      | Except.ok w1 => makedirsList rest w1

/-- Function `setup_directories` (setup.py lines 102-123): ensure every listed
directory, then `return True`. -/
def setup_directories (w : World) : Except Err (Bool × World) :=
  match makedirsList directories w with
  | Except.error e => Except.error e
  | Except.ok w1 => Except.ok (true, w1)

/-- The model-artifact marker path (setup.py line 127). -/
def modelMarkerPath : String := "model/leprosy_classifier.pkl"

/-- Training-class folder paths (setup.py lines 129-130). -/
def positive_dir : String := "dataset/leprosy_dataset/positive"

/-- See `positive_dir`. -/
def negative_dir : String := "dataset/leprosy_dataset/negative"

/-- Test-sample folder paths (setup.py lines 153-154). -/
def test_pos_dir : String := "test_samples/positive"

/-- See `test_pos_dir`. -/
def test_neg_dir : String := "test_samples/negative"

/-- The external scripts (setup.py lines 141, 161, 172). -/
def downloadCmd : Cmd := [sysExecutable, "prepare_kaggle_data.py"]

/-- See `downloadCmd`. -/
def testSamplesCmd : Cmd := [sysExecutable, "prepare_test_samples.py"]

/-- See `downloadCmd`. -/
def trainCmd : Cmd := [sysExecutable, "retrain_model.py"]

/-- The training-dataset completeness test of setup.py lines 132-133: true
when a class folder is missing or holds fewer than 10 entries. -/
def datasets_incomplete (fs : FS) : Bool :=
  !fs.pathExists positive_dir || decide (fs.numEntries positive_dir < 10) ||
  !fs.pathExists negative_dir || decide (fs.numEntries negative_dir < 10)

/-- The test-sample completeness test of setup.py lines 156-157: true when a
test folder is missing or holds fewer than 5 entries. -/
def test_samples_incomplete (fs : FS) : Bool :=
  !fs.pathExists test_pos_dir || decide (fs.numEntries test_pos_dir < 5) ||
  !fs.pathExists test_neg_dir || decide (fs.numEntries test_neg_dir < 5)

/-- The model-training step of `run_data_preparation` (setup.py lines 169-176):
launch `retrain_model.py`; its exit status is the function's result. -/
def trainModelStep (w : World) (acc : List Cmd) : Bool × World × List Cmd :=
  let c := subprocessCheckCall trainCmd w
  (c.1, c.2, acc ++ [trainCmd])

/-- The test-sample and training steps of `run_data_preparation` (setup.py
lines 152-176), entered once the download stage is settled. -/
def prepareSamplesAndTrain (w : World) (acc : List Cmd) : Bool × World × List Cmd :=
  if test_samples_incomplete w.fs then
    let c := subprocessCheckCall testSamplesCmd w
    if c.1 then trainModelStep c.2 (acc ++ [testSamplesCmd])
    else (false, c.2, acc ++ [testSamplesCmd])
  else
    trainModelStep w acc

/-- Function `run_data_preparation` (setup.py lines 125-180). -/
def run_data_preparation (w : World) : Except Err (Bool × World × List Cmd) :=
  if !w.fs.pathExists modelMarkerPath then
    if datasets_incomplete w.fs then
      match check_kaggle_credentials w with
      | Except.error e => Except.error e
      | Except.ok (credentials_ready, w1) =>
          if credentials_ready then
            let c := subprocessCheckCall downloadCmd w1
            if c.1 then Except.ok (prepareSamplesAndTrain c.2 [downloadCmd])
            else Except.ok (false, c.2, [downloadCmd])
          else
            Except.ok (false, w1, [])
    else
      Except.ok (prepareSamplesAndTrain w [])
  else
    Except.ok (true, w, [])

/-- Function `main` (setup.py lines 182-206): version gate, dependency check (result
only warned about), directory provisioning (failure fatal), data preparation
(failure only warned about), then `return True`. -/
def main (w : World) : Except Err (Bool × World × List Cmd) :=
  if check_python_version w then
    let d := check_dependencies w
    match setup_directories d.2.1 with
    | Except.error e => Except.error e
    | Except.ok (dirsFlag, w2) =>
        if dirsFlag then
          match run_data_preparation w2 with
          | Except.error e => Except.error e
          | Except.ok (_, w3, t2) => Except.ok (true, w3, d.2.2 ++ t2)
        else
          Except.ok (false, w2, d.2.2)
  else
    Except.ok (false, w, [])

/-- The `if __name__ == "__main__"` block (setup.py lines 208-211):
`sys.exit(1)` when `main` returns `False`; an uncaught exception also makes
the interpreter exit with code 1. -/
def scriptExitCode (w : World) : Nat :=
  match main w with
  | Except.ok (true, _, _) => 0
  | Except.ok (false, _, _) => 1
  | Except.error _ => 1

/-- The boolean `main` returned, or `none` when it raised. -/
def mainVal (w : World) : Option Bool :=
  match main w with
  | Except.ok (b, _, _) => some b
  | Except.error _ => none

/-- The boolean `run_data_preparation` returned, or `none` when it raised. -/
def rdpVal (w : World) : Option Bool :=
  match run_data_preparation w with
  | Except.ok (b, _, _) => some b
  | Except.error _ => none

/-- The external processes `run_data_preparation` launched. -/
def rdpProcs (w : World) : List Cmd :=
  match run_data_preparation w with
  | Except.ok (_, _, t) => t
  | Except.error _ => []

/-- The boolean `setup_directories` returned, or `none` when it raised. -/
def setupDirsVal (w : World) : Option Bool :=
  match setup_directories w with
  | Except.ok (b, _) => some b
  | Except.error _ => none

/-- The world left by `setup_directories` (unchanged when it raised). -/
def dirs_after (w : World) : World :=
  match setup_directories w with
  | Except.ok (_, w1) => w1
  | Except.error _ => w

/-- The boolean `check_kaggle_credentials` returned, or `none` when it raised. -/
def ckcVal (w : World) : Option Bool :=
  match check_kaggle_credentials w with
  | Except.ok (b, _) => some b
  | Except.error _ => none

/-- The world left by `check_kaggle_credentials` (unchanged when it raised). -/
def ckc_after (w : World) : World :=
  match check_kaggle_credentials w with
  | Except.ok (_, w1) => w1
  | Except.error _ => w

/-- Whether an `Except` result is a normal return. -/
def exceptIsOk {α : Type} : Except Err α → Bool
  | Except.ok _ => true
  | Except.error _ => false

/-- All twelve listed directories exist as directories. -/
def dirsOk (fs : FS) : Bool :=
  directories.all (fun d => fs.pathExists d && fs.isDir d)

/-- An empty filesystem: nothing exists. -/
def emptyFS : FS :=
  { pathExists := fun _ => false
    isDir := fun _ => false
    numEntries := fun _ => 0
    fileContent := fun _ => none
    fileMode := fun _ => none }

/-- A benign concrete world: Python 3.10, every module importable, no
environment variables, empty filesystem, no queued input, every subprocess
succeeds without touching the filesystem, no directory creation fails. -/
def baseWorld : World :=
  { pyMajor := 3
    pyMinor := 10
    importable := fun _ => true
    env := fun _ => none
    fs := emptyFS
    stdin := []
    runProc := fun _ fs => (true, fs)
    mkdirFails := fun _ => false }

/-- A world running Python 3.7. -/
def verFailW : World := { baseWorld with pyMinor := 7 }

/-- A world where the trained-model marker file already exists. -/
def markerW : World :=
  { baseWorld with fs := { emptyFS with pathExists := fun p => p == modelMarkerPath } }

/-- C1: if the model marker file exists, `run_data_preparation` launches zero
external processes, changes nothing, and returns `True`. -/
theorem C1_marker_skips_everything (w : World)
    (h : w.fs.pathExists modelMarkerPath = true) :
    run_data_preparation w = Except.ok (true, w, []) := by
  simp [run_data_preparation, h]

/-- Witness for C1 at a concrete world whose marker file exists. -/
theorem C1_marker_skips_everything_witness :
    run_data_preparation markerW = Except.ok (true, markerW, []) :=
  C1_marker_skips_everything markerW (by decide)

lemma foldl_mkdirOne_pathExists (l : List String) (fs : FS) (p : String)
    (h : fs.pathExists p = true ∨ p ∈ l) :
    (l.foldl FS.mkdirOne fs).pathExists p = true := by
  induction l generalizing fs with
  | nil => simpa using h.resolve_right (by simp)
  | cons a l ih =>
      simp only [List.foldl_cons]
      apply ih
      rcases h with h | h
      · left; simp [FS.mkdirOne, h]
      · rcases List.mem_cons.mp h with rfl | h
        · left; simp [FS.mkdirOne]
        · right; exact h

lemma foldl_mkdirOne_isDir (l : List String) (fs : FS) (p : String)
    (h : fs.isDir p = true ∨ p ∈ l) :
    (l.foldl FS.mkdirOne fs).isDir p = true := by
  induction l generalizing fs with
  | nil => simpa using h.resolve_right (by simp)
  | cons a l ih =>
      simp only [List.foldl_cons]
      apply ih
      rcases h with h | h
      · left; simp [FS.mkdirOne, h]
      · rcases List.mem_cons.mp h with rfl | h
        · left; simp [FS.mkdirOne]
        · right; exact h

lemma makedirs_ok (d : String) (w : World)
    (h : ∀ p ∈ pathPrefixes d, w.fs.pathExists p = true ∨ w.mkdirFails p = false) :
    makedirs d w = Except.ok { w with fs := (pathPrefixes d).foldl FS.mkdirOne w.fs } := by
  have hn : ¬((pathPrefixes d).any (fun p => !w.fs.pathExists p && w.mkdirFails p) = true) := by
    rw [List.any_eq_true]
    rintro ⟨p, hp, hcond⟩
    rcases h p hp with h1 | h1 <;> simp [h1] at hcond
  unfold makedirs
  rw [if_neg hn]

lemma makedirs_ok_inv (d : String) (w w1 : World)
    (h : makedirs d w = Except.ok w1) :
    w1 = { w with fs := (pathPrefixes d).foldl FS.mkdirOne w.fs } := by
  unfold makedirs at h
  split at h
  · exact Except.noConfusion h
  · rw [Except.ok.injEq] at h
    exact h.symm

lemma makedirsList_ok (ds : List String) (w : World)
    (h : ∀ d ∈ ds, ∀ p ∈ pathPrefixes d, w.fs.pathExists p = true ∨ w.mkdirFails p = false) :
    ∃ w1, makedirsList ds w = Except.ok w1 ∧
      w1.mkdirFails = w.mkdirFails ∧
      (∀ p, w.fs.pathExists p = true → w1.fs.pathExists p = true) ∧
      (∀ p, w.fs.isDir p = true → w1.fs.isDir p = true) := by
  induction ds generalizing w with
  | nil => exact ⟨w, rfl, rfl, fun _ hp => hp, fun _ hp => hp⟩
  | cons d rest ih =>
      have hd := makedirs_ok d w (h d (List.mem_cons_self d rest))
      obtain ⟨w1, hml, hmk, hmp, hmd⟩ :=
        ih { w with fs := (pathPrefixes d).foldl FS.mkdirOne w.fs } (by
          intro d' hd' p hp
          rcases h d' (List.mem_cons_of_mem d hd') p hp with h1 | h1
          · exact Or.inl (foldl_mkdirOne_pathExists _ _ _ (Or.inl h1))
          · exact Or.inr h1)
      refine ⟨w1, ?_, hmk, ?_, ?_⟩
      · unfold makedirsList
        rw [hd]
        exact hml
      · intro p hp
        exact hmp p (foldl_mkdirOne_pathExists _ _ _ (Or.inl hp))
      · intro p hp
        exact hmd p (foldl_mkdirOne_isDir _ _ _ (Or.inl hp))

lemma makedirsList_ok_inv (ds : List String) (w w1 : World)
    (h : makedirsList ds w = Except.ok w1) :
    (∀ d ∈ ds, ∀ p ∈ pathPrefixes d, w1.fs.pathExists p = true ∧ w1.fs.isDir p = true) ∧
    w1.mkdirFails = w.mkdirFails ∧
    (∀ p, w.fs.pathExists p = true → w1.fs.pathExists p = true) ∧
    (∀ p, w.fs.isDir p = true → w1.fs.isDir p = true) := by
  induction ds generalizing w with
  | nil =>
      unfold makedirsList at h
      rw [Except.ok.injEq] at h
      subst h
      exact ⟨by simp, rfl, fun _ hp => hp, fun _ hp => hp⟩
  | cons d rest ih =>
      unfold makedirsList at h
      cases hd : makedirs d w with
      | error e => rw [hd] at h; exact Except.noConfusion h
      | ok w2 =>
          rw [hd] at h
          have hw2 := makedirs_ok_inv d w w2 hd
          obtain ⟨hall, hmk, hmp, hmd⟩ := ih w2 h
          refine ⟨?_, ?_, ?_, ?_⟩
          · intro d' hd' p hp
            rcases List.mem_cons.mp hd' with rfl | hd'
            · constructor
              · apply hmp
                rw [hw2]
                exact foldl_mkdirOne_pathExists _ _ _ (Or.inr hp)
              · apply hmd
                rw [hw2]
                exact foldl_mkdirOne_isDir _ _ _ (Or.inr hp)
            · exact hall d' hd' p hp
          · rw [hmk, hw2]
          · intro p hp
            apply hmp
            rw [hw2]
            exact foldl_mkdirOne_pathExists _ _ _ (Or.inl hp)
          · intro p hp
            apply hmd
            rw [hw2]
            exact foldl_mkdirOne_isDir _ _ _ (Or.inl hp)

lemma setup_directories_ok_true (w : World) (r : Bool × World)
    (h : setup_directories w = Except.ok r) : r.1 = true := by
  unfold setup_directories at h
  split at h
  · exact Except.noConfusion h
  · rw [Except.ok.injEq] at h
    rw [← h]

/-- Every listed directory is, as a string, its own innermost ancestor. -/
lemma directories_self_mem : ∀ d ∈ directories, d ∈ pathPrefixes d := by decide

/-- C3: whenever `setup_directories` completes without raising, it returned
`True` and every one of the twelve listed paths exists as a directory; running
it again on the resulting state also completes, returns `True`, and all the
directories are still in place. -/
theorem C3_setup_directories_idempotent (w : World)
    (h : exceptIsOk (setup_directories w) = true) :
    setupDirsVal w = some true ∧
    dirsOk (dirs_after w).fs = true ∧
    setupDirsVal (dirs_after w) = some true ∧
    dirsOk (dirs_after (dirs_after w)).fs = true := by
  cases hml : makedirsList directories w with
  | error e =>
      have hsd : setup_directories w = Except.error e := by
        unfold setup_directories; rw [hml]
      rw [hsd] at h
      exact absurd h (by simp [exceptIsOk])
  | ok w1 =>
      have hsd : setup_directories w = Except.ok (true, w1) := by
        unfold setup_directories; rw [hml]
      have hafter : dirs_after w = w1 := by simp [dirs_after, hsd]
      obtain ⟨hall, -, -, -⟩ := makedirsList_ok_inv directories w w1 hml
      obtain ⟨w2, hml2, -, hmp2, hmd2⟩ := makedirsList_ok directories w1 (by
        intro d hd p hp
        exact Or.inl (hall d hd p hp).1)
      have hsd2 : setup_directories w1 = Except.ok (true, w2) := by
        unfold setup_directories; rw [hml2]
      have hafter2 : dirs_after w1 = w2 := by simp [dirs_after, hsd2]
      refine ⟨by simp [setupDirsVal, hsd], ?_, ?_, ?_⟩
      · rw [hafter, dirsOk, List.all_eq_true]
        intro d hd
        have hm := hall d hd d (directories_self_mem d hd)
        simp [hm.1, hm.2]
      · rw [hafter]
        simp [setupDirsVal, hsd2]
      · rw [hafter, hafter2, dirsOk, List.all_eq_true]
        intro d hd
        have hm := hall d hd d (directories_self_mem d hd)
        simp [hmp2 d hm.1, hmd2 d hm.2]

/-- Witness for C3 on a fresh empty world. -/
theorem C3_setup_directories_idempotent_witness :
    setupDirsVal baseWorld = some true ∧
    dirsOk (dirs_after baseWorld).fs = true ∧
    setupDirsVal (dirs_after baseWorld) = some true ∧
    dirsOk (dirs_after (dirs_after baseWorld)).fs = true :=
  C3_setup_directories_idempotent baseWorld (by decide)

lemma readInput_mkdirFails (w : World) : (readInput w).2.mkdirFails = w.mkdirFails := by
  unfold readInput
  rcases hw : w.stdin with _ | ⟨a, t⟩ <;> simp [hw]

lemma setEnv_mkdirFails (w : World) (k v : String) :
    (w.setEnv k v).mkdirFails = w.mkdirFails := rfl

lemma subprocessCheckCall_mkdirFails (cmd : Cmd) (w : World) :
    ((subprocessCheckCall cmd w).2).mkdirFails = w.mkdirFails := rfl

lemma check_dependencies_mkdirFails (w : World) :
    ((check_dependencies w).2.1).mkdirFails = w.mkdirFails := by
  unfold check_dependencies
  dsimp only
  split
  · rfl
  · split
    · simp [subprocessCheckCall_mkdirFails, readInput_mkdirFails]
    · simp [readInput_mkdirFails]

lemma main_eq_of_version_ok (w : World) (hv : check_python_version w = true) :
    main w = (match setup_directories (check_dependencies w).2.1 with
      | Except.error e => Except.error e
      | Except.ok (dirsFlag, w2) =>
          if dirsFlag then
            match run_data_preparation w2 with
            | Except.error e => Except.error e
            | Except.ok (_, w3, t2) => Except.ok (true, w3, (check_dependencies w).2.2 ++ t2)
          else Except.ok (false, w2, (check_dependencies w).2.2)) := by
  unfold main
  rw [hv]
  exact if_pos rfl

lemma ckc_ok_of_mkdirFails_false (w : World) (h : ∀ p, w.mkdirFails p = false) :
    exceptIsOk (check_kaggle_credentials w) = true := by
  have hmk : ∀ (w' : World), w'.mkdirFails = w.mkdirFails →
      makedirs kaggleDirPath w' =
        Except.ok { w' with fs := (pathPrefixes kaggleDirPath).foldl FS.mkdirOne w'.fs } := by
    intro w' hw'
    exact makedirs_ok _ _ (fun p _ => Or.inr (by rw [hw']; exact h p))
  unfold check_kaggle_credentials
  dsimp only
  split
  · split
    · rfl
    · split
      · split
        · rw [hmk _ (by simp [readInput_mkdirFails, setEnv_mkdirFails])]
          rfl
        · rfl
      · rfl
  · rfl

lemma rdp_ok_of_mkdirFails_false (w : World) (h : ∀ p, w.mkdirFails p = false) :
    exceptIsOk (run_data_preparation w) = true := by
  unfold run_data_preparation
  dsimp only
  split
  · split
    · cases hc : check_kaggle_credentials w with
      | error e =>
          have hok := ckc_ok_of_mkdirFails_false w h
          rw [hc] at hok
          exact absurd hok (by simp [exceptIsOk])
      | ok bw =>
          obtain ⟨b, w1⟩ := bw
          dsimp only
          split
          · split
            · rfl
            · rfl
          · rfl
    · rfl
  · rfl

lemma mainVal_some_true (w : World) (hv : check_python_version w = true)
    (h : ∀ p, w.mkdirFails p = false) : mainVal w = some true := by
  have hd : ((check_dependencies w).2.1).mkdirFails = w.mkdirFails :=
    check_dependencies_mkdirFails w
  obtain ⟨w2, hml, hmk, -, -⟩ := makedirsList_ok directories (check_dependencies w).2.1
    (fun d _ p _ => Or.inr (by rw [hd]; exact h p))
  have hsd : setup_directories (check_dependencies w).2.1 = Except.ok (true, w2) := by
    unfold setup_directories
    rw [hml]
  have h2 : ∀ p, w2.mkdirFails p = false := by
    intro p
    rw [hmk, hd]
    exact h p
  have hr := rdp_ok_of_mkdirFails_false w2 h2
  have hmain : main w = (match run_data_preparation w2 with
      | Except.error e => Except.error e
      | Except.ok (_, w3, t2) => Except.ok (true, w3, (check_dependencies w).2.2 ++ t2)) := by
    rw [main_eq_of_version_ok w hv, hsd]
    rfl
  cases hrd : run_data_preparation w2 with
  | error e =>
      rw [hrd] at hr
      exact absurd hr (by simp [exceptIsOk])
  | ok bwt =>
      obtain ⟨b, w3, t⟩ := bwt
      rw [hrd] at hmain
      simp [mainVal, hmain]

lemma version_ok_mainVal_ne_false (w : World) (hv : check_python_version w = true) :
    mainVal w ≠ some false := by
  cases hsd : setup_directories (check_dependencies w).2.1 with
  | error e =>
      have hm : main w = Except.error e := by
        rw [main_eq_of_version_ok w hv, hsd]
      simp [mainVal, hm]
  | ok r =>
      have hb : r.1 = true := setup_directories_ok_true _ r hsd
      obtain ⟨b, w2⟩ := r
      have hb' : b = true := hb
      subst hb'
      have hmain : main w = (match run_data_preparation w2 with
          | Except.error e => Except.error e
          | Except.ok (_, w3, t2) => Except.ok (true, w3, (check_dependencies w).2.2 ++ t2)) := by
        rw [main_eq_of_version_ok w hv, hsd]
        rfl
      cases hrd : run_data_preparation w2 with
      | error e =>
          rw [hrd] at hmain
          simp [mainVal, hmain]
      | ok bwt =>
          obtain ⟨b', w3, t⟩ := bwt
          rw [hrd] at hmain
          simp [mainVal, hmain]

/-- A world whose filesystem refuses every directory creation. -/
def mkdirFailW : World := { baseWorld with mkdirFails := fun _ => true }

/-- C9: `setup_directories` can only return `True` when it returns at all, so
`main` returns `False` only out of the version gate; a directory-creation
error at `main`'s provisioning step propagates as an uncaught exception
instead of a `False` return. -/
theorem C9_setup_directories_never_false :
    (∀ w, exceptIsOk (setup_directories w) = true → setupDirsVal w = some true) ∧
    (∀ w, mainVal w = some false → check_python_version w = false) ∧
    (∀ w e, check_python_version w = true →
      setup_directories ((check_dependencies w).2.1) = Except.error e →
      main w = Except.error e) := by
  refine ⟨?_, ?_, ?_⟩
  · intro w h
    cases hsd : setup_directories w with
    | error e =>
        rw [hsd] at h
        exact absurd h (by simp [exceptIsOk])
    | ok r =>
        have hb : r.1 = true := setup_directories_ok_true _ r hsd
        obtain ⟨b, w1⟩ := r
        have hb' : b = true := hb
        subst hb'
        simp [setupDirsVal, hsd]
  · intro w h
    cases hcv : check_python_version w with
    | false => rfl
    | true => exact absurd h (version_ok_mainVal_ne_false w hcv)
  · intro w e hv hsd
    rw [main_eq_of_version_ok w hv, hsd]

/-- Witness for C9: a clean world provisions directories returning `True`; on
Python 3.7 `main` returns `False` only because of the version gate; a world
refusing directory creation makes `main` raise `OSError`. -/
theorem C9_setup_directories_never_false_witness :
    setupDirsVal baseWorld = some true ∧
    check_python_version verFailW = false ∧
    main mkdirFailW = Except.error Err.osError :=
  ⟨C9_setup_directories_never_false.1 baseWorld (by decide),
   C9_setup_directories_never_false.2.1 verFailW rfl,
   C9_setup_directories_never_false.2.2 mkdirFailW Err.osError rfl rfl⟩

/-- C5: the exit code is 0 exactly when `main` returned `True`, and 1 when it
returned `False`; a `False` return can only come from the version gate or
from directory provisioning having returned `False`. -/
theorem C5_exit_code (w : World) :
    (scriptExitCode w = 0 ↔ mainVal w = some true) ∧
    (mainVal w = some false → scriptExitCode w = 1) ∧
    (mainVal w = some false →
      check_python_version w = false ∨
      setupDirsVal ((check_dependencies w).2.1) = some false) := by
  refine ⟨?_, ?_, ?_⟩
  · cases hm : main w with
    | error e => simp [scriptExitCode, mainVal, hm]
    | ok bwt =>
        obtain ⟨b, w1, t⟩ := bwt
        cases b <;> simp [scriptExitCode, mainVal, hm]
  · intro h
    cases hm : main w with
    | error e => simp [mainVal, hm] at h
    | ok bwt =>
        obtain ⟨b, w1, t⟩ := bwt
        simp [mainVal, hm] at h
        subst h
        simp [scriptExitCode, hm]
  · intro h
    cases hcv : check_python_version w with
    | false => exact Or.inl rfl
    | true => exact absurd h (version_ok_mainVal_ne_false w hcv)

/-- Witness for C5 on Python 3.7: exit code 1, caused by the version gate. -/
theorem C5_exit_code_witness :
    scriptExitCode verFailW = 1 ∧
    (check_python_version verFailW = false ∨
      setupDirsVal ((check_dependencies verFailW).2.1) = some false) :=
  ⟨(C5_exit_code verFailW).2.1 rfl, (C5_exit_code verFailW).2.2 rfl⟩

lemma rdp_complete_route (w : World)
    (hm : w.fs.pathExists modelMarkerPath = false)
    (hc : datasets_incomplete w.fs = false) :
    run_data_preparation w = Except.ok (prepareSamplesAndTrain w []) := by
  simp [run_data_preparation, hm, hc]

lemma rdp_download_route (w w1 : World)
    (hm : w.fs.pathExists modelMarkerPath = false)
    (hinc : datasets_incomplete w.fs = true)
    (hck : check_kaggle_credentials w = Except.ok (true, w1))
    (hdl : (w1.runProc downloadCmd w1.fs).1 = true) :
    run_data_preparation w =
      Except.ok (prepareSamplesAndTrain (subprocessCheckCall downloadCmd w1).2 [downloadCmd]) := by
  simp [run_data_preparation, hm, hinc, hck, subprocessCheckCall, hdl]

lemma pst_samples_fail (w : World) (acc : List Cmd)
    (h1 : test_samples_incomplete w.fs = true)
    (h2 : (w.runProc testSamplesCmd w.fs).1 = false) :
    prepareSamplesAndTrain w acc =
      (false, (subprocessCheckCall testSamplesCmd w).2, acc ++ [testSamplesCmd]) := by
  simp [prepareSamplesAndTrain, h1, subprocessCheckCall, h2]

lemma pst_train_after_complete (w : World) (acc : List Cmd)
    (h1 : test_samples_incomplete w.fs = false) :
    prepareSamplesAndTrain w acc =
      ((w.runProc trainCmd w.fs).1, (subprocessCheckCall trainCmd w).2, acc ++ [trainCmd]) := by
  simp [prepareSamplesAndTrain, h1, trainModelStep, subprocessCheckCall]

lemma pst_train_after_samples (w : World) (acc : List Cmd)
    (h1 : test_samples_incomplete w.fs = true)
    (h2 : (w.runProc testSamplesCmd w.fs).1 = true) :
    prepareSamplesAndTrain w acc =
      (((subprocessCheckCall testSamplesCmd w).2.runProc trainCmd
          (subprocessCheckCall testSamplesCmd w).2.fs).1,
       (subprocessCheckCall trainCmd (subprocessCheckCall testSamplesCmd w).2).2,
       acc ++ [testSamplesCmd, trainCmd]) := by
  simp [prepareSamplesAndTrain, h1, trainModelStep, subprocessCheckCall, h2]

/-- C6: every external-process invocation site converts a non-zero exit into
a `False` return of the invoking function instead of an exception — the pip
install inside `check_dependencies`, and the download, test-sample and
training invocations of `run_data_preparation` on each path that reaches
them (with or without a preceding download, with or without a preceding
test-sample run) — and `main` treats the data-preparation result as
non-fatal: whenever the version gate passes and directory creation works,
`main` still returns `True` whatever the data-preparation outcome was. -/
theorem C6_subprocess_failure_nonfatal :
    (∀ w ans rest, missing_packages w ≠ [] → w.stdin = ans :: rest →
      pyLower ans = "y" →
      (w.runProc (pipInstallCmd (missing_packages w)) w.fs).1 = false →
      (check_dependencies w).1 = false ∧
      (check_dependencies w).2.2 = [pipInstallCmd (missing_packages w)]) ∧
    (∀ w w1, w.fs.pathExists modelMarkerPath = false →
      datasets_incomplete w.fs = true →
      check_kaggle_credentials w = Except.ok (true, w1) →
      (w1.runProc downloadCmd w1.fs).1 = false →
      rdpVal w = some false ∧ rdpProcs w = [downloadCmd]) ∧
    (∀ w, w.fs.pathExists modelMarkerPath = false →
      datasets_incomplete w.fs = false →
      test_samples_incomplete w.fs = true →
      (w.runProc testSamplesCmd w.fs).1 = false →
      rdpVal w = some false ∧ rdpProcs w = [testSamplesCmd]) ∧
    (∀ w w1, w.fs.pathExists modelMarkerPath = false →
      datasets_incomplete w.fs = true →
      check_kaggle_credentials w = Except.ok (true, w1) →
      (w1.runProc downloadCmd w1.fs).1 = true →
      test_samples_incomplete (subprocessCheckCall downloadCmd w1).2.fs = true →
      ((subprocessCheckCall downloadCmd w1).2.runProc testSamplesCmd
        (subprocessCheckCall downloadCmd w1).2.fs).1 = false →
      rdpVal w = some false ∧ rdpProcs w = [downloadCmd, testSamplesCmd]) ∧
    (∀ w, w.fs.pathExists modelMarkerPath = false →
      datasets_incomplete w.fs = false →
      test_samples_incomplete w.fs = false →
      (w.runProc trainCmd w.fs).1 = false →
      rdpVal w = some false ∧ rdpProcs w = [trainCmd]) ∧
    (∀ w, w.fs.pathExists modelMarkerPath = false →
      datasets_incomplete w.fs = false →
      test_samples_incomplete w.fs = true →
      (w.runProc testSamplesCmd w.fs).1 = true →
      ((subprocessCheckCall testSamplesCmd w).2.runProc trainCmd
        (subprocessCheckCall testSamplesCmd w).2.fs).1 = false →
      rdpVal w = some false ∧ rdpProcs w = [testSamplesCmd, trainCmd]) ∧
    (∀ w w1, w.fs.pathExists modelMarkerPath = false →
      datasets_incomplete w.fs = true →
      check_kaggle_credentials w = Except.ok (true, w1) →
      (w1.runProc downloadCmd w1.fs).1 = true →
      test_samples_incomplete (subprocessCheckCall downloadCmd w1).2.fs = false →
      ((subprocessCheckCall downloadCmd w1).2.runProc trainCmd
        (subprocessCheckCall downloadCmd w1).2.fs).1 = false →
      rdpVal w = some false ∧ rdpProcs w = [downloadCmd, trainCmd]) ∧
    (∀ w w1, w.fs.pathExists modelMarkerPath = false →
      datasets_incomplete w.fs = true →
      check_kaggle_credentials w = Except.ok (true, w1) →
      (w1.runProc downloadCmd w1.fs).1 = true →
      test_samples_incomplete (subprocessCheckCall downloadCmd w1).2.fs = true →
      ((subprocessCheckCall downloadCmd w1).2.runProc testSamplesCmd
        (subprocessCheckCall downloadCmd w1).2.fs).1 = true →
      ((subprocessCheckCall testSamplesCmd (subprocessCheckCall downloadCmd w1).2).2.runProc
        trainCmd
        (subprocessCheckCall testSamplesCmd (subprocessCheckCall downloadCmd w1).2).2.fs).1 = false →
      rdpVal w = some false ∧ rdpProcs w = [downloadCmd, testSamplesCmd, trainCmd]) ∧
    (∀ w, check_python_version w = true → (∀ p, w.mkdirFails p = false) →
      mainVal w = some true) := by
  refine ⟨?_, ?_, ?_, ?_, ?_, ?_, ?_, ?_, ?_⟩
  · intro w ans rest hmiss hs hy hfail
    obtain ⟨maj, minr, imp, env, fs, stdin, rp, mf⟩ := w
    dsimp only at hmiss hs hy hfail ⊢
    subst hs
    simp [check_dependencies, readInput, hmiss, hy, subprocessCheckCall, hfail]
  · intro w w1 hm hinc hck hfail
    have hr : run_data_preparation w =
        Except.ok (false, (subprocessCheckCall downloadCmd w1).2, [downloadCmd]) := by
      simp [run_data_preparation, hm, hinc, hck, subprocessCheckCall, hfail]
    simp [rdpVal, rdpProcs, hr]
  · intro w hm hc hs hfail
    have hr := rdp_complete_route w hm hc
    rw [pst_samples_fail w [] hs hfail] at hr
    simp [rdpVal, rdpProcs, hr]
  · intro w w1 hm hinc hck hdl hs hfail
    have hr := rdp_download_route w w1 hm hinc hck hdl
    rw [pst_samples_fail _ _ hs hfail] at hr
    simp [rdpVal, rdpProcs, hr]
  · intro w hm hc hs hfail
    have hr := rdp_complete_route w hm hc
    rw [pst_train_after_complete w [] hs, hfail] at hr
    simp [rdpVal, rdpProcs, hr]
  · intro w hm hc hs hok hfail
    have hr := rdp_complete_route w hm hc
    rw [pst_train_after_samples w [] hs hok, hfail] at hr
    simp [rdpVal, rdpProcs, hr]
  · intro w w1 hm hinc hck hdl hs hfail
    have hr := rdp_download_route w w1 hm hinc hck hdl
    rw [pst_train_after_complete _ _ hs, hfail] at hr
    simp [rdpVal, rdpProcs, hr]
  · intro w w1 hm hinc hck hdl hs hok hfail
    have hr := rdp_download_route w w1 hm hinc hck hdl
    rw [pst_train_after_samples _ _ hs hok, hfail] at hr
    simp [rdpVal, rdpProcs, hr]
  · exact fun w hv h => mainVal_some_true w hv h

/-- A world with credentials in the environment whose every subprocess exits
non-zero. -/
def procFailW : World :=
  { baseWorld with
    env := fun k =>
      if k == "KAGGLE_USERNAME" || k == "KAGGLE_KEY" then some "user" else none
    runProc := fun _ fs => (false, fs) }

/-- A world missing every package, answering yes to the install prompt, whose
pip invocation exits non-zero. -/
def pipFailW : World :=
  { baseWorld with
    importable := fun _ => false
    stdin := ["y"]
    runProc := fun _ fs => (false, fs) }

/-- A filesystem whose two training-class folders exist with 10 entries each
and nothing else. -/
def dataOnlyFS : FS :=
  { emptyFS with
    pathExists := fun p => p == positive_dir || p == negative_dir
    numEntries := fun p => if p == positive_dir || p == negative_dir then 10 else 0 }

/-- A world with populated training folders whose test-sample preparation
process exits non-zero. -/
def samplesFailW : World :=
  { baseWorld with fs := dataOnlyFS, runProc := fun _ fs => (false, fs) }

/-- A world with environment credentials where only the download process
exits zero. -/
def dlOkSamplesFailW : World :=
  { baseWorld with
    env := fun k =>
      if k == "KAGGLE_USERNAME" || k == "KAGGLE_KEY" then some "user" else none
    runProc := fun c fs => (c == downloadCmd, fs) }

/-- A filesystem where training and test-sample folders are all populated. -/
def fullFS : FS :=
  { emptyFS with
    pathExists := fun p =>
      p == positive_dir || p == negative_dir || p == test_pos_dir || p == test_neg_dir
    numEntries := fun _ => 10 }

/-- A world with all data folders populated whose training process exits
non-zero. -/
def trainFailW : World :=
  { baseWorld with fs := fullFS, runProc := fun _ fs => (false, fs) }

/-- A world with populated training folders where only the test-sample
process exits zero, so the training process fails. -/
def samplesOkTrainFailW : World :=
  { baseWorld with fs := dataOnlyFS, runProc := fun c fs => (c == testSamplesCmd, fs) }

/-- A filesystem whose two test-sample folders exist with 5 entries each and
nothing else. -/
def testOnlyFS : FS :=
  { emptyFS with
    pathExists := fun p => p == test_pos_dir || p == test_neg_dir
    numEntries := fun _ => 5 }

/-- A world with environment credentials and populated test folders where
only the download process exits zero, so the training process fails. -/
def dlOkTrainFailW : World :=
  { baseWorld with
    fs := testOnlyFS
    env := fun k =>
      if k == "KAGGLE_USERNAME" || k == "KAGGLE_KEY" then some "user" else none
    runProc := fun c fs => (c == downloadCmd, fs) }

/-- A world with environment credentials where every process except the
training one exits zero. -/
def allButTrainW : World :=
  { baseWorld with
    env := fun k =>
      if k == "KAGGLE_USERNAME" || k == "KAGGLE_KEY" then some "user" else none
    runProc := fun c fs => (!(c == trainCmd), fs) }

/-- Witness for C6: one concrete run per invocation site and path — failing
pip install, download, test-sample preparation (with and without a preceding
download) and training (on all four paths that reach it) — each yielding a
`False` return with the process invoked, while `main` still returns `True`
on a failing-subprocess world. -/
theorem C6_subprocess_failure_nonfatal_witness :
    ((check_dependencies pipFailW).1 = false ∧
      (check_dependencies pipFailW).2.2 = [pipInstallCmd (missing_packages pipFailW)]) ∧
    (rdpVal procFailW = some false ∧ rdpProcs procFailW = [downloadCmd]) ∧
    (rdpVal samplesFailW = some false ∧ rdpProcs samplesFailW = [testSamplesCmd]) ∧
    (rdpVal dlOkSamplesFailW = some false ∧
      rdpProcs dlOkSamplesFailW = [downloadCmd, testSamplesCmd]) ∧
    (rdpVal trainFailW = some false ∧ rdpProcs trainFailW = [trainCmd]) ∧
    (rdpVal samplesOkTrainFailW = some false ∧
      rdpProcs samplesOkTrainFailW = [testSamplesCmd, trainCmd]) ∧
    (rdpVal dlOkTrainFailW = some false ∧
      rdpProcs dlOkTrainFailW = [downloadCmd, trainCmd]) ∧
    (rdpVal allButTrainW = some false ∧
      rdpProcs allButTrainW = [downloadCmd, testSamplesCmd, trainCmd]) ∧
    mainVal procFailW = some true :=
  ⟨C6_subprocess_failure_nonfatal.1 pipFailW "y" [] (by decide) rfl (by decide) rfl,
   C6_subprocess_failure_nonfatal.2.1 procFailW procFailW rfl rfl rfl rfl,
   C6_subprocess_failure_nonfatal.2.2.1 samplesFailW (by decide) (by decide) (by decide) rfl,
   C6_subprocess_failure_nonfatal.2.2.2.1 dlOkSamplesFailW dlOkSamplesFailW
     rfl rfl rfl (by decide) (by decide) (by decide),
   C6_subprocess_failure_nonfatal.2.2.2.2.1 trainFailW (by decide) (by decide) (by decide) rfl,
   C6_subprocess_failure_nonfatal.2.2.2.2.2.1 samplesOkTrainFailW
     (by decide) (by decide) (by decide) (by decide) (by decide),
   C6_subprocess_failure_nonfatal.2.2.2.2.2.2.1 dlOkTrainFailW dlOkTrainFailW
     (by decide) (by decide) rfl (by decide) (by decide) (by decide),
   C6_subprocess_failure_nonfatal.2.2.2.2.2.2.2.1 allButTrainW allButTrainW
     rfl rfl rfl (by decide) (by decide) (by decide) (by decide),
   C6_subprocess_failure_nonfatal.2.2.2.2.2.2.2.2 procFailW rfl (fun _ => rfl)⟩

/-- C4: on an interpreter older than 3.8 the version check fails, `main`
returns `False` with the world untouched and no external process launched
(so no later stage ran), and the process exit code is 1. -/
theorem C4_version_gate (w : World)
    (h : w.pyMajor < 3 ∨ (w.pyMajor = 3 ∧ w.pyMinor < 8)) :
    check_python_version w = false ∧
    main w = Except.ok (false, w, []) ∧
    scriptExitCode w = 1 := by
  have hv : check_python_version w = false := by
    unfold check_python_version
    exact if_pos h
  have hm : main w = Except.ok (false, w, []) := by
    unfold main
    rw [hv]
    simp
  exact ⟨hv, hm, by simp [scriptExitCode, hm]⟩

/-- Witness for C4 on Python 3.7. -/
theorem C4_version_gate_witness :
    check_python_version verFailW = false ∧
    main verFailW = Except.ok (false, verFailW, []) ∧
    scriptExitCode verFailW = 1 :=
  C4_version_gate verFailW (Or.inr ⟨rfl, by decide⟩)

lemma prepareSamplesAndTrain_procs (w : World) (acc : List Cmd) :
    (prepareSamplesAndTrain w acc).2.2 = acc ++ [testSamplesCmd] ∨
    (prepareSamplesAndTrain w acc).2.2 = acc ++ [testSamplesCmd, trainCmd] ∨
    (prepareSamplesAndTrain w acc).2.2 = acc ++ [trainCmd] := by
  unfold prepareSamplesAndTrain trainModelStep
  dsimp only
  split
  · split
    · right; left; simp
    · left; rfl
  · right; right; rfl

/-- C2: with the model marker absent, the download process is launched only
when a training-class folder is missing or under-populated; with both folders
populated it is skipped; and when the threshold is unmet and the credential
check succeeds, it is launched. -/
theorem C2_download_gating (w : World)
    (hm : w.fs.pathExists modelMarkerPath = false) :
    (datasets_incomplete w.fs = false → downloadCmd ∉ rdpProcs w) ∧
    (downloadCmd ∈ rdpProcs w → datasets_incomplete w.fs = true) ∧
    (∀ w1, datasets_incomplete w.fs = true →
      check_kaggle_credentials w = Except.ok (true, w1) →
      downloadCmd ∈ rdpProcs w) := by
  have hskip : datasets_incomplete w.fs = false → downloadCmd ∉ rdpProcs w := by
    intro hc
    have hr : run_data_preparation w = Except.ok (prepareSamplesAndTrain w []) := by
      simp [run_data_preparation, hm, hc]
    have hps : rdpProcs w = (prepareSamplesAndTrain w []).2.2 := by
      unfold rdpProcs
      rw [hr]
    rcases prepareSamplesAndTrain_procs w [] with h1 | h1 | h1 <;>
      rw [hps, h1] <;> decide
  refine ⟨hskip, ?_, ?_⟩
  · intro hmem
    cases hdc : datasets_incomplete w.fs with
    | false => exact absurd hmem (hskip hdc)
    | true => rfl
  · intro w1 hinc hck
    cases hp : (subprocessCheckCall downloadCmd w1).1 with
    | false =>
        have hr : run_data_preparation w =
            Except.ok (false, (subprocessCheckCall downloadCmd w1).2, [downloadCmd]) := by
          simp [run_data_preparation, hm, hinc, hck, hp]
        simp [rdpProcs, hr]
    | true =>
        have hr : run_data_preparation w =
            Except.ok (prepareSamplesAndTrain (subprocessCheckCall downloadCmd w1).2 [downloadCmd]) := by
          simp [run_data_preparation, hm, hinc, hck, hp]
        have hps : rdpProcs w =
            (prepareSamplesAndTrain (subprocessCheckCall downloadCmd w1).2 [downloadCmd]).2.2 := by
          unfold rdpProcs
          rw [hr]
        rcases prepareSamplesAndTrain_procs (subprocessCheckCall downloadCmd w1).2 [downloadCmd]
            with h1 | h1 | h1 <;> rw [hps, h1] <;> simp

/-- Witness for C2: marker absent, empty dataset folders, environment
credentials present — the download process is launched. -/
theorem C2_download_gating_witness : downloadCmd ∈ rdpProcs procFailW :=
  (C2_download_gating procFailW rfl).2.2 procFailW rfl rfl

lemma pyLower_y : pyLower "y" = "y" := by decide

lemma pathPrefixes_kaggleDir : pathPrefixes kaggleDirPath = ["~", "~/.kaggle"] := by decide

/-- C7: entering credentials interactively and answering the persistence
prompt affirmatively leaves `~/.kaggle/kaggle.json` existing, holding the
entered username/key JSON object, with mode `0o600`. -/
theorem C7_credential_persistence (w : World) (u k : String) (rest : List String)
    (hu : w.env "KAGGLE_USERNAME" = none)
    (hf : w.fs.pathExists kaggleJsonPath = false)
    (hs : w.stdin = "y" :: u :: k :: "y" :: rest)
    (hmk : ∀ p, w.mkdirFails p = false) :
    ckcVal w = some true ∧
    (ckc_after w).fs.pathExists kaggleJsonPath = true ∧
    (ckc_after w).fs.fileContent kaggleJsonPath = some [("username", u), ("key", k)] ∧
    (ckc_after w).fs.fileMode kaggleJsonPath = some 0o600 := by
  obtain ⟨maj, minr, imp, env, fs, stdin, rp, mf⟩ := w
  dsimp only at hu hf hs hmk ⊢
  subst hs
  simp [ckcVal, ckc_after, check_kaggle_credentials, readInput, hu, hf, pyTruthy,
        pyLower_y, makedirs, pathPrefixes_kaggleDir, hmk, World.setEnv,
        FS.mkdirOne, FS.writeFile, FS.chmod]

/-- A world queued to enter credentials interactively and persist them. -/
def persistW : World := { baseWorld with stdin := ["y", "alice", "secret", "y"] }

/-- Witness for C7 with username `alice` and key `secret`. -/
theorem C7_credential_persistence_witness :
    ckcVal persistW = some true ∧
    (ckc_after persistW).fs.pathExists kaggleJsonPath = true ∧
    (ckc_after persistW).fs.fileContent kaggleJsonPath = some [("username", "alice"), ("key", "secret")] ∧
    (ckc_after persistW).fs.fileMode kaggleJsonPath = some 0o600 :=
  C7_credential_persistence persistW "alice" "secret" [] rfl rfl rfl (fun _ => rfl)

/-- A world with no importable package and the single queued answer `"Y"`. -/
def onlyYUpperW : World :=
  { baseWorld with importable := fun _ => false, stdin := ["Y"] }

/-- Counterexample to C8 as stated: the response `"Y"` is not the exact
string `"y"`, yet the install prompt takes the affirmative branch (the pip
process is invoked), because the code compares `input.lower() == 'y'`. -/
theorem C8_counterexample_capital_Y :
    onlyYUpperW.stdin = ["Y"] ∧ ("Y" : String) ≠ "y" ∧
    (check_dependencies onlyYUpperW).2.2 ≠ [] :=
  ⟨rfl, by decide, by decide⟩

lemma kaggle_env_keys_ne : (("KAGGLE_USERNAME" : String) == "KAGGLE_KEY") = false := by
  decide

/-- C8 (amended): each yes/no prompt takes the affirmative branch exactly
when the response's ASCII lowercase form is `"y"`, and every other response
is treated as "no".  Shown at all three prompts: the install prompt (as a
biconditional on the pip invocation), the credential-setup prompt (an
affirmative lowercase-`"y"` answer enters the credential branch — returning
`True` with both environment variables set — while any other answer returns
`False` immediately), and the persistence prompt (an affirmative
lowercase-`"y"` answer writes the credential file, any other answer leaves
the filesystem untouched while still returning `True`). -/
theorem C8_amended_lowercase_y :
    (∀ w ans rest, missing_packages w ≠ [] → w.stdin = ans :: rest →
      ((check_dependencies w).2.2 ≠ [] ↔ pyLower ans = "y")) ∧
    (∀ w ans u k p rest, pyTruthy (w.env "KAGGLE_USERNAME") = false →
      w.fs.pathExists kaggleJsonPath = false →
      w.stdin = ans :: u :: k :: p :: rest → pyLower ans = "y" →
      (∀ q, w.mkdirFails q = false) →
      ckcVal w = some true ∧
      (ckc_after w).env "KAGGLE_USERNAME" = some u ∧
      (ckc_after w).env "KAGGLE_KEY" = some k) ∧
    (∀ w ans rest, pyTruthy (w.env "KAGGLE_USERNAME") = false →
      w.fs.pathExists kaggleJsonPath = false → w.stdin = ans :: rest →
      pyLower ans ≠ "y" →
      check_kaggle_credentials w = Except.ok (false, { w with stdin := rest })) ∧
    (∀ w a1 u k a2 rest, pyTruthy (w.env "KAGGLE_USERNAME") = false →
      w.fs.pathExists kaggleJsonPath = false →
      w.stdin = a1 :: u :: k :: a2 :: rest → pyLower a1 = "y" → pyLower a2 = "y" →
      (∀ q, w.mkdirFails q = false) →
      ckcVal w = some true ∧
      (ckc_after w).fs.pathExists kaggleJsonPath = true ∧
      (ckc_after w).fs.fileContent kaggleJsonPath = some [("username", u), ("key", k)] ∧
      (ckc_after w).fs.fileMode kaggleJsonPath = some 0o600) ∧
    (∀ w a1 u k ans rest, pyTruthy (w.env "KAGGLE_USERNAME") = false →
      w.fs.pathExists kaggleJsonPath = false →
      w.stdin = a1 :: u :: k :: ans :: rest → pyLower a1 = "y" → pyLower ans ≠ "y" →
      ckcVal w = some true ∧ (ckc_after w).fs = w.fs) := by
  refine ⟨?_, ?_, ?_, ?_, ?_⟩
  · intro w ans rest hmiss hs
    obtain ⟨maj, minr, imp, env, fs, stdin, rp, mf⟩ := w
    dsimp only at hmiss hs ⊢
    subst hs
    unfold check_dependencies
    dsimp only
    rw [if_neg hmiss]
    simp only [readInput]
    by_cases hy : pyLower ans = "y"
    · rw [if_pos hy]
      simp [hy]
    · rw [if_neg hy]
      simp [hy]
  · intro w ans u k p rest hcu hf hs hy hmk
    obtain ⟨maj, minr, imp, env, fs, stdin, rp, mf⟩ := w
    dsimp only at hcu hf hs hy hmk ⊢
    subst hs
    by_cases hp : pyLower p = "y"
    · simp [ckcVal, ckc_after, check_kaggle_credentials, readInput, hcu, hf, hy, hp,
            makedirs, pathPrefixes_kaggleDir, hmk, World.setEnv, FS.mkdirOne,
            FS.writeFile, FS.chmod, kaggle_env_keys_ne]
    · simp [ckcVal, ckc_after, check_kaggle_credentials, readInput, hcu, hf, hy, hp,
            World.setEnv, kaggle_env_keys_ne]
  · intro w ans rest hcu hf hs hy
    obtain ⟨maj, minr, imp, env, fs, stdin, rp, mf⟩ := w
    dsimp only at hcu hf hs hy ⊢
    subst hs
    simp [check_kaggle_credentials, readInput, hcu, hf, hy]
  · intro w a1 u k a2 rest hcu hf hs hy1 hy2 hmk
    obtain ⟨maj, minr, imp, env, fs, stdin, rp, mf⟩ := w
    dsimp only at hcu hf hs hy1 hy2 hmk ⊢
    subst hs
    simp [ckcVal, ckc_after, check_kaggle_credentials, readInput, hcu, hf, hy1, hy2,
          makedirs, pathPrefixes_kaggleDir, hmk, World.setEnv, FS.mkdirOne,
          FS.writeFile, FS.chmod]
  · intro w a1 u k ans rest hcu hf hs hy1 hy
    obtain ⟨maj, minr, imp, env, fs, stdin, rp, mf⟩ := w
    dsimp only at hcu hf hs hy1 hy ⊢
    subst hs
    simp [ckcVal, ckc_after, check_kaggle_credentials, readInput, hcu, hf,
          hy1, hy, World.setEnv]

/-- A world answering `"n"` to the credential-setup prompt. -/
def noAnsW : World := { baseWorld with stdin := ["n"] }

/-- A world entering credentials but answering `"no"` to the persistence
prompt. -/
def noPersistW : World := { baseWorld with stdin := ["y", "u", "k", "no"] }

/-- A world answering `"Y"` (capital) to the credential-setup prompt and
`"n"` to the persistence prompt. -/
def setupYW : World := { baseWorld with stdin := ["Y", "u1", "k1", "n"] }

/-- A world answering `"Y"` (capital) to both the credential-setup prompt
and the persistence prompt. -/
def persistYW : World := { baseWorld with stdin := ["Y", "u2", "k2", "Y"] }

/-- Witness for the amended C8: concrete answers at all three prompts,
including the capital `"Y"` taking the affirmative branch at the
credential-setup and persistence prompts. -/
theorem C8_amended_lowercase_y_witness :
    ((check_dependencies onlyYUpperW).2.2 ≠ [] ↔ pyLower "Y" = "y") ∧
    (ckcVal setupYW = some true ∧
      (ckc_after setupYW).env "KAGGLE_USERNAME" = some "u1" ∧
      (ckc_after setupYW).env "KAGGLE_KEY" = some "k1") ∧
    check_kaggle_credentials noAnsW = Except.ok (false, { noAnsW with stdin := [] }) ∧
    (ckcVal persistYW = some true ∧
      (ckc_after persistYW).fs.pathExists kaggleJsonPath = true ∧
      (ckc_after persistYW).fs.fileContent kaggleJsonPath = some [("username", "u2"), ("key", "k2")] ∧
      (ckc_after persistYW).fs.fileMode kaggleJsonPath = some 0o600) ∧
    (ckcVal noPersistW = some true ∧ (ckc_after noPersistW).fs = noPersistW.fs) :=
  ⟨C8_amended_lowercase_y.1 onlyYUpperW "Y" [] (by decide) rfl,
   C8_amended_lowercase_y.2.1 setupYW "Y" "u1" "k1" "n" [] rfl rfl rfl (by decide)
     (fun _ => rfl),
   C8_amended_lowercase_y.2.2.1 noAnsW "n" [] rfl rfl rfl (by decide),
   C8_amended_lowercase_y.2.2.2.1 persistYW "Y" "u2" "k2" "Y" [] rfl rfl rfl
     (by decide) (by decide) (fun _ => rfl),
   C8_amended_lowercase_y.2.2.2.2 noPersistW "y" "u" "k" "no" [] rfl rfl rfl
     (by decide) (by decide)⟩

lemma collectMissing_mem (imp : String → Bool) (l : List String) (acc : List String)
    (x : String) :
    x ∈ collectMissing imp l acc ↔
      x ∈ acc ∨ (x ∈ l ∧ imp (dashToUnderscore x) = false) := by
  induction l generalizing acc with
  | nil => simp [collectMissing]
  | cons p rest ih =>
      simp only [collectMissing]
      by_cases h : imp (dashToUnderscore p) = true
      · rw [if_pos h, ih]
        constructor
        · rintro (hx | ⟨hx, hf⟩)
          · exact Or.inl hx
          · exact Or.inr ⟨List.mem_cons_of_mem p hx, hf⟩
        · rintro (hx | ⟨hx, hf⟩)
          · exact Or.inl hx
          · rcases List.mem_cons.mp hx with rfl | hx
            · rw [h] at hf
              exact absurd hf (by simp)
            · exact Or.inr ⟨hx, hf⟩
      · have hf : imp (dashToUnderscore p) = false := by
          cases hip : imp (dashToUnderscore p)
          · rfl
          · exact absurd hip h
        rw [if_neg h, ih]
        constructor
        · rintro (hx | ⟨hx, hf2⟩)
          · rcases List.mem_append.mp hx with hx | hx
            · exact Or.inl hx
            · rw [List.mem_singleton] at hx
              subst hx
              exact Or.inr ⟨List.mem_cons_self _ _, hf⟩
          · exact Or.inr ⟨List.mem_cons_of_mem p hx, hf2⟩
        · rintro (hx | ⟨hx, hf2⟩)
          · exact Or.inl (List.mem_append.mpr (Or.inl hx))
          · rcases List.mem_cons.mp hx with rfl | hx
            · exact Or.inl (List.mem_append.mpr (Or.inr (List.mem_singleton.mpr rfl)))
            · exact Or.inr ⟨hx, hf2⟩

lemma collectMissing_congr (imp1 imp2 : String → Bool) (l : List String)
    (acc : List String)
    (h : ∀ p ∈ l, imp1 (dashToUnderscore p) = imp2 (dashToUnderscore p)) :
    collectMissing imp1 l acc = collectMissing imp2 l acc := by
  induction l generalizing acc with
  | nil => rfl
  | cons p rest ih =>
      simp only [collectMissing]
      rw [h p (List.mem_cons_self p rest)]
      have hrest : ∀ q ∈ rest, imp1 (dashToUnderscore q) = imp2 (dashToUnderscore q) :=
        fun q hq => h q (List.mem_cons_of_mem p hq)
      by_cases h2 : imp2 (dashToUnderscore p) = true
      · rw [if_pos h2, if_pos h2]
        exact ih _ hrest
      · rw [if_neg h2, if_neg h2]
        exact ih _ hrest

/-- C10: a package is reported missing exactly when importing its listed name
with hyphens turned to underscores fails; the missing list depends on nothing
but those probes; in particular an un-importable `opencv_python` or
`scikit_learn` marks `opencv-python` / `scikit-learn` missing no matter what
other module names (such as `cv2` or `sklearn`) are importable. -/
theorem C10_import_probe :
    (∀ w p, p ∈ missing_packages w ↔
      p ∈ required_packages ∧ w.importable (dashToUnderscore p) = false) ∧
    (∀ w w1, (∀ p ∈ required_packages,
        w.importable (dashToUnderscore p) = w1.importable (dashToUnderscore p)) →
      missing_packages w = missing_packages w1) ∧
    (∀ w, w.importable "opencv_python" = false → "opencv-python" ∈ missing_packages w) ∧
    (∀ w, w.importable "scikit_learn" = false → "scikit-learn" ∈ missing_packages w) := by
  have hmem : ∀ (w : World) (p : String), p ∈ missing_packages w ↔
      p ∈ required_packages ∧ w.importable (dashToUnderscore p) = false := by
    intro w p
    unfold missing_packages
    rw [collectMissing_mem]
    simp
  refine ⟨hmem, ?_, ?_, ?_⟩
  · intro w w1 h
    unfold missing_packages
    exact collectMissing_congr _ _ _ _ h
  · intro w h
    rw [hmem]
    refine ⟨by decide, ?_⟩
    have he : dashToUnderscore "opencv-python" = "opencv_python" := by decide
    rw [he]
    exact h
  · intro w h
    rw [hmem]
    refine ⟨by decide, ?_⟩
    have he : dashToUnderscore "scikit-learn" = "scikit_learn" := by decide
    rw [he]
    exact h

/-- A world where no module at all is importable (so also not `cv2` or
`sklearn`, but equally not the probed underscore names). -/
def noImportW : World := { baseWorld with importable := fun _ => false }

/-- Witness for C10: both transformed-name probes fail, so both packages are
reported missing, and the missing list is stable under agreement of probes. -/
theorem C10_import_probe_witness :
    "opencv-python" ∈ missing_packages noImportW ∧
    "scikit-learn" ∈ missing_packages noImportW ∧
    missing_packages baseWorld = missing_packages baseWorld :=
  ⟨C10_import_probe.2.2.1 noImportW rfl,
   C10_import_probe.2.2.2 noImportW rfl,
   C10_import_probe.2.1 baseWorld baseWorld (fun _ _ => rfl)⟩

end SetupPy
